import Mathlib

/-!
Verification development for the hass_cozylife_local_pull integration.

The embedding follows the Python sources:
  custom_components/hass_cozylife_local_pull/tcp_client.py
  custom_components/hass_cozylife_local_pull/udp_discover.py
  custom_components/hass_cozylife_local_pull/__init__.py

JSON values decoded from the wire are modelled by the inductive type Json
(numbers restricted to integers, which is all the device protocol uses).
Network effects (connection opening, writes, reads with timeouts) are
modelled by explicit environment records; a session is a record of the
fields that CozyLifeDevice.__init__ sets, with the reader/writer pair
collapsed to one connected flag because the source always assigns and
clears the two streams together.
-/

/-- Wire values: the subset of JSON the device protocol exchanges. -/
inductive Json where
  | null : Json
  | bool (b : Bool) : Json
  | num (n : Int) : Json
  | str (s : String) : Json
  | arr (xs : List Json) : Json
  | obj (fields : List (String × Json)) : Json

/-- Dictionary lookup on a decoded JSON object, as Python dict.get: the
value when the key is present, otherwise none (and none on non-objects,
where Python would raise). -/
def lookupFields : List (String × Json) → String → Option Json
  | [], _ => none
  | (l, v) :: rest, k => if l == k then some v else lookupFields rest k

/-- Lookup of a key on a Json value; none when the value is not an object. -/
def jsonLookup : Json → String → Option Json
  | Json.obj fields, k => lookupFields fields k
  | _, _ => none

/-- Python truthiness of a decoded JSON value: empty containers, empty
strings, zero, None and False are falsy. -/
def Json.truthy : Json → Bool
  | Json.null => false
  | Json.bool b => b
  | Json.num n => n != 0
  | Json.str s => s != ""
  | Json.arr xs => !xs.isEmpty
  | Json.obj fs => !fs.isEmpty

/-- Structural equality of decoded JSON values, modelling Python == on the
results of json.loads (the cross-type bool/int equality of Python is not
modelled; the protocol never compares across types). -/
def pyEq : Json → Json → Bool
  | Json.null, Json.null => true
  | Json.bool a, Json.bool b => a == b
  | Json.num a, Json.num b => a == b
  | Json.str a, Json.str b => a == b
  | Json.arr [], Json.arr [] => true
  | Json.arr (a :: as), Json.arr (b :: bs) =>
      pyEq a b && pyEq (Json.arr as) (Json.arr bs)
  | Json.obj [], Json.obj [] => true
  | Json.obj ((k, v) :: as), Json.obj ((l, w) :: bs) =>
      k == l && pyEq v w && pyEq (Json.obj as) (Json.obj bs)
  | _, _ => false

/-- Command codes from tcp_client.py. -/
def CMD_INFO : Nat := 0

/-- QUERY command code from tcp_client.py. -/
def CMD_QUERY : Nat := 2

/-- SET command code from tcp_client.py. -/
def CMD_SET : Nat := 3

/-- CMD_LIST from tcp_client.py. -/
def CMD_LIST : List Nat := [CMD_INFO, CMD_QUERY, CMD_SET]

/-- Decimal digits of a positive number, most significant first; the first
argument is recursion fuel (any bound above the digit count works). -/
def natDigits : Nat → Nat → List Char
  | 0, _ => []
  | fuel + 1, n =>
      if n < 10 then [Char.ofNat (48 + n)]
      else natDigits fuel (n / 10) ++ [Char.ofNat (48 + n % 10)]

/-- Decimal rendering of a natural number (str(n) in Python). -/
def natToString (n : Nat) : String :=
  String.mk (natDigits (n + 1) n)

/-- Modelled from the spec: get_sn lives in the utils module of the repository,
which is not under src/; the spec says each request carries a fresh
sequence token, unique per request (e.g. a millisecond timestamp string).
It is modelled as a per-session counter rendered to a string. -/
def genSn (counter : Nat) : String := natToString counter

/-- Numeric value of a digit string. -/
def digitsVal (cs : List Char) : Nat :=
  cs.foldl (fun a c => a * 10 + (c.toNat - 48)) 0

/-- ASCII whitespace as stripped by Python str.strip(). -/
def isSpaceChar (c : Char) : Bool :=
  c = ' ' || c = '\t' || c = '\n' || c = '\r' || c = '\x0b' || c = '\x0c'

/-- Drop leading whitespace characters. -/
def dropSpaces : List Char → List Char
  | [] => []
  | c :: rest => if isSpaceChar c then dropSpaces rest else c :: rest

/-- Characters of a string with surrounding whitespace stripped, as Python
str.strip(). -/
def stripChars (s : String) : List Char :=
  (dropSpaces (dropSpaces s.data.reverse)).reverse

/-- Python int(s) on a string: optional surrounding whitespace, an optional
sign, then decimal digits; anything else raises ValueError (modelled as
none). -/
def pyInt (s : String) : Option Int :=
  let cs := stripChars s
  match cs with
  | '-' :: rest =>
      if rest.isEmpty then none
      else if rest.all Char.isDigit then some (-(digitsVal rest : Int)) else none
  | '+' :: rest =>
      if rest.isEmpty then none
      else if rest.all Char.isDigit then some ((digitsVal rest : Int)) else none
  | _ =>
      if cs.isEmpty then none
      else if cs.all Char.isDigit then some ((digitsVal cs : Int)) else none

/-- The attr list of a SET message: int(item) for item in payload.keys(),
in order; none when some key fails to parse (int raises ValueError). -/
def attrsOf : List (String × Json) → Option (List Int)
  | [] => some []
  | (k, _) :: rest =>
      match pyInt k with
      | some n => (attrsOf rest).map (fun tl => n :: tl)
      | none => none

/-- CozyLifeDevice._get_package, tcp_client.py lines 165-197, as a pure
function of the command, payload and the freshly drawn sn (the source
assigns self._sn = get_sn() first; callers of this model refresh the
session sn before calling).  Returns the message object (the source then
serializes it with json.dumps and appends CRLF); an error models the
raised exception (ValueError for an unknown cmd, or ValueError raised by
int() on a non-numeric SET payload key). -/
def get_package (cmd : Nat) (payload : List (String × Json)) (sn : String) :
    Except String Json :=
  if cmd = CMD_SET then
    match attrsOf payload with
    | some attrs =>
        Except.ok (Json.obj
          [("pv", Json.num 0), ("cmd", Json.num (Int.ofNat cmd)),
           ("sn", Json.str sn),
           ("msg", Json.obj
             [("attr", Json.arr (attrs.map Json.num)),
              ("data", Json.obj payload)])])
    | none => Except.error "invalid literal for int"
  else if cmd = CMD_QUERY then
    Except.ok (Json.obj
      [("pv", Json.num 0), ("cmd", Json.num (Int.ofNat cmd)),
       ("sn", Json.str sn),
       ("msg", Json.obj [("attr", Json.arr [Json.num 0])])])
  else if cmd = CMD_INFO then
    Except.ok (Json.obj
      [("pv", Json.num 0), ("cmd", Json.num (Int.ofNat cmd)),
       ("sn", Json.str sn), ("msg", Json.obj [])])
  else
    Except.error "Invalid CMD"

/-- True when _get_package succeeds (no exception escapes encoding). -/
def encodeOk (cmd : Nat) (payload : List (String × Json)) (sn : String) : Bool :=
  match get_package cmd payload sn with
  | Except.ok _ => true
  | Except.error _ => false

/-- Session state of CozyLifeDevice: the fields assigned in __init__
(tcp_client.py lines 32-50).  The reader and writer streams are assigned
and cleared together everywhere in the source, so they are collapsed into
one connected flag; snCounter drives the modelled sequence-token
generator. -/
structure DeviceState where
  ip : String
  connected : Bool
  is_available : Bool
  device_id : Json
  pid : Json
  device_type_code : Json
  icon : Json
  device_model_name : Json
  dpid : Json
  sn : String
  software_version : Json
  snCounter : Nat

/-- CozyLifeDevice.__init__(ip). -/
def initDevice (ip : String) : DeviceState :=
  { ip := ip
    connected := false
    is_available := false
    device_id := Json.str ""
    pid := Json.str ""
    device_type_code := Json.str ""
    icon := Json.str ""
    device_model_name := Json.str ""
    dpid := Json.arr []
    sn := ""
    software_version := Json.str "Unknown"
    snCounter := 0 }

/-- The self._sn = get_sn() assignment at the head of _get_package. -/
def refreshSn (s : DeviceState) : DeviceState :=
  { s with sn := genSn s.snCounter, snCounter := s.snCounter + 1 }

/-- One event the socket read can observe: a 5-second timeout, a line that
json.loads cannot decode (raising an exception), or a decoded message. -/
inductive ReadEvent where
  | timeout : ReadEvent
  | junk : ReadEvent
  | msg (j : Json) : ReadEvent

/-- Network environment of one request: whether write+drain succeeds, and
the stream of read events the socket delivers (an exhausted list means
every further read times out). -/
structure NetEnv where
  writeOk : Bool
  reads : List ReadEvent

/-- The response.get of sn compared with self._sn (a string), as in
tcp_client.py line 222: equal only when the response carries that exact
string under the sn key. -/
def snMatches (j : Json) (sn : String) : Bool :=
  match jsonLookup j "sn" with
  | some (Json.str t) => t == sn
  | _ => false

/-- Outcome of the retry read loop of _async_send_receive. -/
inductive ReadOutcome where
  | excn : ReadOutcome
  | matched (j : Json) : ReadOutcome
  | exhausted : ReadOutcome

/-- The for-attempt-in-range(retries) loop of _async_send_receive
(tcp_client.py lines 214-228): each attempt reads one event; a timeout on
a non-final attempt continues, a timeout on the final attempt breaks; an
undecodable line raises (caught by the outer handler); a decoded message
is returned when its sn matches, otherwise the loop silently moves to the
next attempt.  Also returns the number of reads performed. -/
def readLoop (sn : String) : List ReadEvent → Nat → ReadOutcome × Nat
  | _, 0 => (ReadOutcome.exhausted, 0)
  | reads, n + 1 =>
    match reads.headD ReadEvent.timeout with
    | ReadEvent.timeout =>
        if n = 0 then (ReadOutcome.exhausted, 1)
        else
          let r := readLoop sn reads.tail n
          (r.1, r.2 + 1)
    | ReadEvent.junk => (ReadOutcome.excn, 1)
    | ReadEvent.msg j =>
        if snMatches j sn then (ReadOutcome.matched j, 1)
        else
          let r := readLoop sn reads.tail n
          (r.1, r.2 + 1)

/-- CozyLifeDevice.async_disconnect (tcp_client.py lines 111-121): closes
the writer when present (exceptions from closing are caught), then clears
both streams and the availability flag.  Every other field is left
untouched. -/
def async_disconnect (s : DeviceState) : DeviceState :=
  { s with connected := false, is_available := false }

/-- CozyLifeDevice._async_send_receive (tcp_client.py lines 199-236).
Returns the empty object when not connected; otherwise, under the session
lock: encodes (refreshing self._sn), writes, and runs the read-retry loop.
Any exception (encoding failure, write failure, undecodable response)
disconnects and yields the empty object; exhausting the attempts yields
the empty object without disconnecting. -/
def async_send_receive (s : DeviceState) (env : NetEnv) (cmd : Nat)
    (payload : List (String × Json)) (retries : Nat := 3) : DeviceState × Json :=
  if s.connected = false then (s, Json.obj [])
  else
    let s1 := refreshSn s
    match get_package cmd payload s1.sn with
    | Except.error _ => (async_disconnect s1, Json.obj [])
    | Except.ok _ =>
      if env.writeOk = false then (async_disconnect s1, Json.obj [])
      else
        match (readLoop s1.sn env.reads retries).1 with
        | ReadOutcome.excn => (async_disconnect s1, Json.obj [])
        | ReadOutcome.matched j => (s1, j)
        | ReadOutcome.exhausted => (s1, Json.obj [])

/-- CozyLifeDevice.async_send_only (tcp_client.py lines 238-250): returns
silently when not connected; otherwise encodes (refreshing self._sn) and
writes; every exception is caught, logged, and answered by a disconnect.
The method acquires no lock and never reads. -/
def async_send_only (s : DeviceState) (env : NetEnv) (cmd : Nat)
    (payload : List (String × Json)) : DeviceState :=
  if s.connected = false then s
  else
    let s1 := refreshSn s
    match get_package cmd payload s1.sn with
    | Except.error _ => async_disconnect s1
    | Except.ok _ => if env.writeOk = true then s1 else async_disconnect s1

/-- CozyLifeDevice.async_control (tcp_client.py lines 259-266): awaits
async_send_only and returns True.  Because async_send_only catches every
exception internally, the except branch returning False is unreachable,
so the call always reports True. -/
def async_control (s : DeviceState) (env : NetEnv)
    (payload : List (String × Json)) : DeviceState × Bool :=
  (async_send_only s env CMD_SET payload, true)

/-- CozyLifeDevice.async_query (tcp_client.py lines 252-257): sends QUERY,
and when the response, its msg field and the data field inside msg are all
present and truthy, returns that data map; otherwise the empty map. -/
def async_query (s : DeviceState) (env : NetEnv) : DeviceState × Json :=
  let r := async_send_receive s env CMD_QUERY []
  let resp := r.2
  let msgOpt := jsonLookup resp "msg"
  let dataOpt := msgOpt.bind (fun m => jsonLookup m "data")
  if resp.truthy && (msgOpt.map Json.truthy).getD false
      && (dataOpt.map Json.truthy).getD false then
    (r.1, dataOpt.getD (Json.obj []))
  else (r.1, Json.obj [])

/-- Observable lock and socket actions of a send path. -/
inductive SockAction where
  | lockAcquire : SockAction
  | lockRelease : SockAction
  | write : SockAction
  | read : SockAction
  deriving DecidableEq

/-- The lock/socket actions performed by _async_send_receive (tcp_client.py
lines 199-236): nothing when not connected; otherwise the session lock is
acquired, the package is written (the write call happens even when it then
fails), one read per executed attempt of the retry loop, and the lock is
released when the async-with block exits. -/
def sendReceiveTrace (s : DeviceState) (env : NetEnv) (cmd : Nat)
    (payload : List (String × Json)) (retries : Nat := 3) : List SockAction :=
  if s.connected = false then []
  else
    let s1 := refreshSn s
    match get_package cmd payload s1.sn with
    | Except.error _ => [SockAction.lockAcquire, SockAction.lockRelease]
    | Except.ok _ =>
      if env.writeOk = false then [SockAction.lockAcquire, SockAction.write, SockAction.lockRelease]
      else
        SockAction.lockAcquire :: SockAction.write ::
          (List.replicate (readLoop s1.sn env.reads retries).2 SockAction.read
            ++ [SockAction.lockRelease])

/-- The lock/socket actions performed by async_send_only (tcp_client.py
lines 238-250): nothing when not connected or when encoding raises before
the write; otherwise a single write.  No lock is acquired and no read is
performed. -/
def sendOnlyTrace (s : DeviceState) (_env : NetEnv) (cmd : Nat)
    (payload : List (String × Json)) : List SockAction :=
  if s.connected = false then []
  else
    let s1 := refreshSn s
    match get_package cmd payload s1.sn with
    | Except.error _ => []
    | Except.ok _ => [SockAction.write]

/-- The inner model loop of _async_device_info (tcp_client.py lines
145-158): scan the models of one catalog item for one whose pid equals
the pid of the device. -/
def findModelIn (pid : Json) : List Json → Option Json
  | [] => none
  | m :: rest =>
      if pyEq ((jsonLookup m "pid").getD Json.null) pid then some m
      else findModelIn pid rest

/-- The outer loop of _async_device_info over the catalog: items whose m
field is present and truthy have their model lists scanned; the first
match wins and carries its item along (for the c type code). -/
def findModel (pid : Json) : List Json → Option (Json × Json)
  | [] => none
  | item :: rest =>
      match jsonLookup item "m" with
      | some (Json.arr models) =>
          if (Json.arr models).truthy then
            match findModelIn pid models with
            | some m => some (item, m)
            | none => findModel pid rest
          else findModel pid rest
      | _ => findModel pid rest

/-- CozyLifeDevice._async_device_info (tcp_client.py lines 123-164): one
INFO exchange; on a falsy response or missing msg, return unchanged; else
record did, pid and sv, and when both did and pid are truthy, resolve the
product entry from the catalog list (get_pid_list lives in the missing
utils module, so the catalog content is an input here). -/
def async_device_info (s : DeviceState) (env : NetEnv) (pidList : List Json) :
    DeviceState :=
  let r := async_send_receive s env CMD_INFO []
  let s1 := r.1
  let resp := r.2
  if !(resp.truthy && ((jsonLookup resp "msg").map Json.truthy).getD false) then s1
  else
    let m := (jsonLookup resp "msg").getD Json.null
    let s2 := { s1 with
      device_id := (jsonLookup m "did").getD (Json.str "")
      pid := (jsonLookup m "pid").getD (Json.str "")
      software_version := (jsonLookup m "sv").getD (Json.str "Unknown") }
    if !(s2.device_id.truthy && s2.pid.truthy) then s2
    else
      match findModel s2.pid pidList with
      | some (item, model) =>
          { s2 with
            icon := (jsonLookup model "i").getD (Json.str "")
            device_model_name := (jsonLookup model "n").getD (Json.str "")
            dpid := (jsonLookup model "dpid").getD (Json.arr [])
            device_type_code := (jsonLookup item "c").getD (Json.str "") }
      | none => s2

/-- Environment of one connect attempt: whether opening the TCP connection
succeeds within the 10-second bound (a timeout and any other exception
are handled identically by the source), the network behaviour of the INFO
exchange, and the catalog contents. -/
structure ConnectEnv where
  openOk : Bool
  net : NetEnv
  pidList : List Json

/-- CozyLifeDevice.async_connect (tcp_client.py lines 91-109): on a
successful open, both streams are assigned, _async_device_info runs (it
swallows its own errors, though its send/receive may itself disconnect),
and is_available is then set to True unconditionally; on a failed open
is_available is set to False (the streams keep their previous values) and
False is returned. -/
def async_connect (s : DeviceState) (env : ConnectEnv) : DeviceState × Bool :=
  if env.openOk = true then
    let s1 := { s with connected := true }
    let s2 := async_device_info s1 env.net env.pidList
    ({ s2 with is_available := true }, true)
  else
    ({ s with is_available := false }, false)

/-- One public operation on a session, with its environment. -/
inductive Op where
  | connect (env : ConnectEnv) : Op
  | disconnect : Op
  | query (env : NetEnv) : Op
  | control (env : NetEnv) (payload : List (String × Json)) : Op

/-- State reached by one operation. -/
def stepOp (s : DeviceState) : Op → DeviceState
  | Op.connect env => (async_connect s env).1
  | Op.disconnect => async_disconnect s
  | Op.query env => (async_query s env).1
  | Op.control env p => (async_control s env p).1

/-- State reached by a sequence of operations. -/
def runOps (s : DeviceState) : List Op → DeviceState
  | [] => s
  | op :: rest => runOps (stepOp s op) rest

/-- CozyLifeDevice.query (tcp_client.py lines 269-275), the synchronous
compatibility wrapper: logs a deprecation warning and returns the empty
map; it touches neither the session nor the network. -/
def CozyLifeDevice.query (s : DeviceState) : DeviceState × Json :=
  (s, Json.obj [])

/-- CozyLifeDevice.control (tcp_client.py lines 277-282), the synchronous
compatibility wrapper: logs a deprecation warning and returns False; it
touches neither the session nor the network. -/
def CozyLifeDevice.control (s : DeviceState) (payload : List (String × Json)) :
    DeviceState × Bool :=
  let _ := payload
  (s, false)

/-- Socket actions of the synchronous query wrapper: none. -/
def queryTrace : List SockAction := []

/-- Socket actions of the synchronous control wrapper: none. -/
def controlTrace : List SockAction := []

/-- Outcome of one TCP probe connection attempt (udp_discover.py lines
66-78): success, or one of the failure classes the source catches. -/
inductive ProbeOutcome where
  | ok : ProbeOutcome
  | refused : ProbeOutcome
  | timeout : ProbeOutcome
  | oserror : ProbeOutcome
  | other : ProbeOutcome
  deriving DecidableEq

/-- The _check_device_at_ip coroutine of udp_discover.py lines 55-78: True
exactly when the connection attempt to port 5555 succeeds; timeouts,
refusals, OS errors and any other exception all return False (nothing
propagates). -/
def check_device_at_ip (outcome : ProbeOutcome) : Bool :=
  match outcome with
  | ProbeOutcome.ok => true
  | _ => false

/-- Number of addresses in a subnet of the given prefix length. -/
def subnetSize (p : Nat) : Nat := 2 ^ (32 - p)

/-- Split a character list on a separator character (str.split with one
separator: the groups between occurrences, empty groups preserved). -/
def splitOnChar (sep : Char) : List Char → List (List Char)
  | [] => [[]]
  | x :: rest =>
      if x = sep then [] :: splitOnChar sep rest
      else
        match splitOnChar sep rest with
        | [] => [[x]]
        | g :: gs => (x :: g) :: gs

/-- One dotted-quad octet as parsed by Python ipaddress: one to three
decimal digits, no leading zero, value at most 255. -/
def parseOctet (cs : List Char) : Option Nat :=
  if cs.isEmpty || cs.length > 3 then none
  else if !cs.all Char.isDigit then none
  else if cs.length > 1 && cs.headD '0' == '0' then none
  else
    let v := digitsVal cs
    if v ≤ 255 then some v else none

/-- A dotted-quad IPv4 address as a 32-bit number. -/
def parseIPv4 (cs : List Char) : Option Nat :=
  match splitOnChar '.' cs with
  | [a, b, c, d] =>
      match parseOctet a, parseOctet b, parseOctet c, parseOctet d with
      | some a, some b, some c, some d =>
          some (((a * 256 + b) * 256 + c) * 256 + d)
      | _, _, _, _ => none
  | _ => none

/-- A prefix length as parsed by Python ipaddress: decimal digits, no
leading zero, at most 32. -/
def parseIPv4Mask (cs : List Char) : Option Nat :=
  if cs.isEmpty then none
  else if !cs.all Char.isDigit then none
  else if cs.length > 1 && cs.headD '0' == '0' then none
  else
    let v := digitsVal cs
    if v ≤ 32 then some v else none

/-- Python ipaddress.ip_network(s, strict=False) restricted to IPv4 CIDR
text (the only form used by the configuration of the integration): an address with
an optional slash-prefix; with strict=False the host bits are masked away.
Returns the network base address and the prefix length, or none for a
malformed string (ValueError). -/
def ip_network (s : String) : Option (Nat × Nat) :=
  match splitOnChar '/' s.data with
  | [addr] => (parseIPv4 addr).map (fun a => (a, 32))
  | [addr, p] =>
      match parseIPv4 addr, parseIPv4Mask p with
      | some a, some pr => some (a / subnetSize pr * subnetSize pr, pr)
      | _, _ => none
  | _ => none

/-- The network.hosts() iterator of Python ipaddress, as consumed by
scan_subnet_async: for prefixes up to /30 every address of the range
except the network and broadcast addresses; for /31 both addresses and
for /32 the single address (the documented special cases). -/
def hostsRange (net p : Nat) : List Nat :=
  if 31 ≤ p then (List.range (subnetSize p)).map (fun i => net + i)
  else (List.range (subnetSize p - 2)).map (fun i => net + 1 + i)

/-- Dotted-quad rendering of a 32-bit address, as str(ip). -/
def ipToString (n : Nat) : String :=
  natToString (n / 16777216 % 256) ++ "." ++ natToString (n / 65536 % 256) ++ "."
    ++ natToString (n / 256 % 256) ++ "." ++ natToString (n % 256)

/-- The scan_subnet_async coroutine of udp_discover.py lines 16-52: parse
the CIDR (any ValueError or other exception is caught and yields the
addresses found so far, i.e. the empty list), probe every host address
concurrently, and keep exactly the addresses whose probe returned True.
The probe outcomes are supplied by the accepts oracle. -/
def scan_subnet_async (subnet : String) (accepts : String → Bool) : List String :=
  match ip_network subnet with
  | none => []
  | some (net, p) => ((hostsRange net p).map ipToString).filter accepts

/-- The reading of the claim under check for the subnet probe: the usable
host addresses of a range are all its addresses with the network and the
broadcast address excluded. -/
def claimUsableHosts (net p : Nat) : List Nat :=
  ((List.range (subnetSize p)).map (fun i => net + i)).filter
    (fun a => decide (a ≠ net ∧ a ≠ net + subnetSize p - 1))

/-- Result of one reconciliation diff. -/
structure TickDiff where
  newIps : Finset String
  goneIps : Finset String
  lastAfter : Finset String

/-- The diff step of _async_periodic_discovery (init file lines 207-243):
all_ips is the set of discovered plus configured plus subnet-scanned
addresses; new_ips = all_ips - last_scan_ips, disappeared_ips =
last_scan_ips - all_ips, and last_scan_ips is then set to all_ips. -/
def reconcileTick (discovered configList subnetIps : List String)
    (last : Finset String) : TickDiff :=
  let current := (discovered ++ configList ++ subnetIps).toFinset
  { newIps := current \ last
    goneIps := last \ current
    lastAfter := current }

/-- A read event that lets the retry loop continue without accepting: a
timeout or a response whose sn does not match (junk raises instead). -/
def nonMatch (sn : String) : ReadEvent → Bool
  | ReadEvent.timeout => true
  | ReadEvent.junk => false
  | ReadEvent.msg j => !(snMatches j sn)

/-- Example connected session used by concrete instances. -/
def exConn : DeviceState := { initDevice "192.168.1.5" with connected := true }

/-- Example environment with a working write and a silent device. -/
def exEnvOk : NetEnv := { writeOk := true, reads := [] }

/-- Example environment whose write (or drain) raises. -/
def envWriteFail : NetEnv := { writeOk := false, reads := [] }

/-- Connect environment where the TCP open succeeds but the INFO
exchange write fails. -/
def c3Env : ConnectEnv := { openOk := true, net := envWriteFail, pidList := [] }

theorem readLoop_exhausted_of_nonMatch (sn : String) :
    ∀ (n : Nat) (reads : List ReadEvent),
      (∀ e ∈ reads.take n, nonMatch sn e = true) →
      (readLoop sn reads n).1 = ReadOutcome.exhausted := by
  intro n
  induction n with
  | zero => intro reads _; rfl
  | succ m ih =>
    intro reads h
    cases reads with
    | nil =>
      rw [readLoop]
      simp only [List.headD]
      by_cases hm : m = 0
      · simp [hm]
      · simp only [hm, if_false]
        exact ih [] (by intro e he; simp at he)
    | cons e rest =>
      have he : nonMatch sn e = true := h e (by simp [List.take_succ_cons])
      have hrest : ∀ x ∈ rest.take m, nonMatch sn x = true := by
        intro x hx
        refine h x ?_
        simp only [List.take_succ_cons, List.mem_cons]
        exact Or.inr hx
      rw [readLoop]
      cases e with
      | timeout =>
        simp only [List.headD, List.tail_cons]
        by_cases hm : m = 0
        · simp [hm]
        · simp only [hm, if_false]
          exact ih rest hrest
      | junk => simp [nonMatch] at he
      | msg j =>
        have hj : snMatches j sn = false := by
          simpa [nonMatch] using he
        simp only [List.headD, List.tail_cons, hj, Bool.false_eq_true, if_false]
        exact ih rest hrest

theorem readLoop_matched_sn (sn : String) :
    ∀ (n : Nat) (reads : List ReadEvent) (j : Json),
      (readLoop sn reads n).1 = ReadOutcome.matched j → snMatches j sn = true := by
  intro n
  induction n with
  | zero =>
    intro reads j h
    simp [readLoop] at h
  | succ m ih =>
    intro reads j h
    rw [readLoop] at h
    cases hE : reads.headD ReadEvent.timeout with
    | timeout =>
      rw [hE] at h
      by_cases hm : m = 0
      · simp [hm] at h
      · simp only [hm, if_false] at h
        exact ih reads.tail j h
    | junk => rw [hE] at h; simp at h
    | msg j2 =>
      rw [hE] at h
      by_cases hj : snMatches j2 sn = true
      · simp only [hj, if_true] at h
        cases h
        exact hj
      · simp only [Bool.not_eq_true] at hj
        simp only [hj, Bool.false_eq_true, if_false] at h
        exact ih reads.tail j h


theorem sendReceive_flags (s : DeviceState) (env : NetEnv) (cmd : Nat)
    (payload : List (String × Json)) (retries : Nat) :
    ((async_send_receive s env cmd payload retries).1.connected = s.connected ∧
     (async_send_receive s env cmd payload retries).1.is_available = s.is_available) ∨
    ((async_send_receive s env cmd payload retries).1.connected = false ∧
     (async_send_receive s env cmd payload retries).1.is_available = false) := by
  simp only [async_send_receive]
  split
  · exact Or.inl ⟨rfl, rfl⟩
  · split
    · exact Or.inr ⟨rfl, rfl⟩
    · split
      · exact Or.inr ⟨rfl, rfl⟩
      · split
        · exact Or.inr ⟨rfl, rfl⟩
        · exact Or.inl ⟨rfl, rfl⟩
        · exact Or.inl ⟨rfl, rfl⟩

theorem sendOnly_flags (s : DeviceState) (env : NetEnv) (cmd : Nat)
    (payload : List (String × Json)) :
    ((async_send_only s env cmd payload).connected = s.connected ∧
     (async_send_only s env cmd payload).is_available = s.is_available) ∨
    ((async_send_only s env cmd payload).connected = false ∧
     (async_send_only s env cmd payload).is_available = false) := by
  simp only [async_send_only]
  split
  · exact Or.inl ⟨rfl, rfl⟩
  · split
    · exact Or.inr ⟨rfl, rfl⟩
    · split
      · exact Or.inl ⟨rfl, rfl⟩
      · exact Or.inr ⟨rfl, rfl⟩

theorem async_query_state (s : DeviceState) (env : NetEnv) :
    (async_query s env).1 = (async_send_receive s env CMD_QUERY []).1 := by
  simp only [async_query]
  split <;> rfl

/-- Claim C1: on a device session, a response is returned to the caller only
if its sn field equals the sn freshly generated for that request; a response
with a mismatched sn is silently skipped (one attempt is consumed, the wait
continues, no error handling is triggered); and when the budget of 3 attempts
is exhausted without a matching response (each attempt bounded by the
5-second read timeout, modelled here as a timeout event), the call returns
the empty map with the session otherwise unchanged. -/
theorem c1_sn_correlation :
    (∀ (s : DeviceState) (env : NetEnv) (cmd : Nat) (payload : List (String × Json)),
        (async_send_receive s env cmd payload 3).2 ≠ Json.obj [] →
        snMatches (async_send_receive s env cmd payload 3).2 (genSn s.snCounter) = true) ∧
    (∀ (sn : String) (j : Json) (rest : List ReadEvent) (n : Nat),
        snMatches j sn = false →
        (readLoop sn (ReadEvent.msg j :: rest) (n + 1)).1 = (readLoop sn rest n).1) ∧
    (∀ (s : DeviceState) (env : NetEnv) (cmd : Nat) (payload : List (String × Json)),
        s.connected = true → env.writeOk = true →
        encodeOk cmd payload (genSn s.snCounter) = true →
        (∀ e ∈ env.reads.take 3, nonMatch (genSn s.snCounter) e = true) →
        async_send_receive s env cmd payload 3 = (refreshSn s, Json.obj [])) := by
  refine ⟨?_, ?_, ?_⟩
  · intro s env cmd payload hne
    by_cases hc : s.connected = false
    · simp only [async_send_receive, hc, if_pos] at hne
      exact absurd rfl hne
    · simp only [async_send_receive, hc, if_neg, not_false_eq_true] at hne ⊢
      cases hp : get_package cmd payload (refreshSn s).sn with
      | error e =>
        simp only [hp] at hne
        exact absurd rfl hne
      | ok v =>
        simp only [hp] at hne ⊢
        by_cases hw : env.writeOk = false
        · simp only [hw, if_pos] at hne
          exact absurd rfl hne
        · simp only [hw, if_neg, not_false_eq_true] at hne ⊢
          cases hl : (readLoop (refreshSn s).sn env.reads 3).1 with
          | excn =>
            simp only [hl] at hne
            exact absurd rfl hne
          | matched j =>
            simp only [hl] at hne ⊢
            exact readLoop_matched_sn _ 3 env.reads j hl
          | exhausted =>
            simp only [hl] at hne
            exact absurd rfl hne
  · intro sn j rest n hj
    rw [readLoop]
    simp only [List.headD, List.tail_cons, hj, Bool.false_eq_true, if_false]
  · intro s env cmd payload hc hw he hr
    simp only [async_send_receive, hc, Bool.true_eq_false, if_false]
    have hpkg : ∃ v, get_package cmd payload (refreshSn s).sn = Except.ok v := by
      unfold encodeOk at he
      cases hp : get_package cmd payload (refreshSn s).sn with
      | ok v => exact ⟨v, rfl⟩
      | error e =>
        rw [show (refreshSn s).sn = genSn s.snCounter from rfl] at hp
        rw [hp] at he
        simp at he
    obtain ⟨v, hv⟩ := hpkg
    rw [hv, hw]
    simp only [Bool.true_eq_false, if_false]
    have hex : (readLoop (refreshSn s).sn env.reads 3).1 = ReadOutcome.exhausted :=
      readLoop_exhausted_of_nonMatch _ 3 env.reads hr
    rw [hex]

/-- Witness for claim C1: a connected session whose device answers with a
stale-sn response, then stays silent, then repeats the stale response,
gets the empty map back and keeps its connection. -/
theorem c1_sn_correlation_witness :
    async_send_receive exConn
      { writeOk := true,
        reads := [ReadEvent.msg (Json.obj [("sn", Json.str "stale")]),
                  ReadEvent.timeout,
                  ReadEvent.msg (Json.obj [("sn", Json.str "stale")])] }
      CMD_QUERY [] 3 = (refreshSn exConn, Json.obj []) :=
  c1_sn_correlation.2.2 exConn _ CMD_QUERY [] rfl rfl rfl (by decide)

/-- Claim C2 (evaluation at the failing input): on a connected session whose
TCP write raises, control still reports success while the session is torn
down: async_send_only catches the write exception internally and
disconnects, so the except branch of async_control that would return False
can never run. -/
theorem c2_control_swallows_write_failure :
    (async_control exConn envWriteFail [("1", Json.num 255)]).2 = true ∧
    (async_control exConn envWriteFail [("1", Json.num 255)]).1.connected = false ∧
    (async_control exConn envWriteFail [("1", Json.num 255)]).1.is_available = false :=
  ⟨rfl, rfl, rfl⟩

/-- Claim C3 (counterexample): a single connect from the freshly constructed
session, in an environment where the TCP open succeeds but the INFO
exchange write fails, reaches a state where available is true although no
live connection exists: the write failure disconnects inside
_async_send_receive, yet async_connect still sets is_available afterwards. -/
theorem c3_available_without_connection :
    (runOps (initDevice "192.168.1.5") [Op.connect c3Env]).is_available = true ∧
    (runOps (initDevice "192.168.1.5") [Op.connect c3Env]).connected = false :=
  ⟨rfl, rfl⟩

/-- Claim C3 (amended): connect sets available exactly when the TCP open
succeeds, regardless of the outcome of the INFO exchange; disconnect clears it;
and each query or control either leaves the connected and available flags
unchanged (also on attempt exhaustion, when the last exchange failed) or
clears them both on an I/O-error disconnect.  Available therefore implies
neither a live connection nor a successful last exchange. -/
theorem c3_availability_discipline :
    (∀ (s : DeviceState) (env : ConnectEnv),
        ((async_connect s env).1).is_available = env.openOk) ∧
    (∀ s : DeviceState, (async_disconnect s).is_available = false) ∧
    (∀ (s : DeviceState) (env : NetEnv),
        ((async_query s env).1.connected = s.connected ∧
         (async_query s env).1.is_available = s.is_available) ∨
        ((async_query s env).1.connected = false ∧
         (async_query s env).1.is_available = false)) ∧
    (∀ (s : DeviceState) (env : NetEnv) (payload : List (String × Json)),
        ((async_control s env payload).1.connected = s.connected ∧
         (async_control s env payload).1.is_available = s.is_available) ∨
        ((async_control s env payload).1.connected = false ∧
         (async_control s env payload).1.is_available = false)) := by
  refine ⟨?_, fun s => rfl, ?_, ?_⟩
  · intro s env
    cases ho : env.openOk <;> simp [async_connect, ho]
  · intro s env
    rw [async_query_state]
    exact sendReceive_flags s env CMD_QUERY [] 3
  · intro s env payload
    exact sendOnly_flags s env CMD_SET payload

/-- Claim C4 (counterexample): on a connected session the fire-and-forget SET
path writes to the socket without ever acquiring the session lock. -/
theorem c4_set_path_unlocked :
    SockAction.write ∈ sendOnlyTrace exConn exEnvOk CMD_SET [("1", Json.num 255)] ∧
    SockAction.lockAcquire ∉ sendOnlyTrace exConn exEnvOk CMD_SET [("1", Json.num 255)] := by
  decide

/-- Claim C4 (amended): the request/response paths (INFO and QUERY, through
_async_send_receive) are serialized under the session lock - whenever they
write, the action trace opens with the lock acquisition - but the
fire-and-forget SET path (async_send_only, used by control) never acquires
the lock. -/
theorem c4_locking_discipline :
    (∀ (s : DeviceState) (env : NetEnv) (cmd : Nat)
        (payload : List (String × Json)) (retries : Nat),
        SockAction.write ∈ sendReceiveTrace s env cmd payload retries →
        (sendReceiveTrace s env cmd payload retries).head? =
          some SockAction.lockAcquire) ∧
    (∀ (s : DeviceState) (env : NetEnv) (cmd : Nat) (payload : List (String × Json)),
        SockAction.lockAcquire ∉ sendOnlyTrace s env cmd payload) := by
  constructor
  · intro s env cmd payload retries h
    by_cases hc : s.connected = false
    · simp only [sendReceiveTrace, hc, if_pos] at h
      simp at h
    · simp only [sendReceiveTrace, hc, if_neg, not_false_eq_true] at h ⊢
      cases hp : get_package cmd payload (refreshSn s).sn with
      | error e => simp only [hp]; rfl
      | ok v =>
        simp only [hp]
        by_cases hw : env.writeOk = false
        · simp only [hw, if_pos]; rfl
        · simp only [hw, if_neg, not_false_eq_true]; rfl
  · intro s env cmd payload
    by_cases hc : s.connected = false
    · simp [sendOnlyTrace, hc]
    · simp only [sendOnlyTrace, hc, if_neg, not_false_eq_true]
      cases hp : get_package cmd payload (refreshSn s).sn with
      | error e => simp [hp]
      | ok v => simp [hp]

/-- Witness for claim C4 (amended): the QUERY trace on a connected session
begins with the lock acquisition. -/
theorem c4_locking_discipline_witness :
    (sendReceiveTrace exConn exEnvOk CMD_QUERY [] 3).head? =
      some SockAction.lockAcquire :=
  c4_locking_discipline.1 exConn exEnvOk CMD_QUERY [] 3 (by decide)

/-- Claim C5 (counterexample): disconnect does not reset the device address;
the ip field keeps its previous non-empty value. -/
theorem c5_address_not_reset :
    (async_disconnect (initDevice "192.168.1.77")).ip = "192.168.1.77" ∧
    "192.168.1.77" ≠ "" :=
  ⟨rfl, by decide⟩

/-- Claim C5 (amended): disconnect is idempotent; after it the connection is
released and available is false; and the address, id, productId, the
capability fields and the software version are all left unchanged (the
address is retained, not reset). -/
theorem c5_disconnect_frame :
    (∀ s : DeviceState, async_disconnect (async_disconnect s) = async_disconnect s) ∧
    (∀ s : DeviceState, (async_disconnect s).connected = false ∧
        (async_disconnect s).is_available = false) ∧
    (∀ s : DeviceState, (async_disconnect s).ip = s.ip ∧
        (async_disconnect s).device_id = s.device_id ∧
        (async_disconnect s).pid = s.pid ∧
        (async_disconnect s).device_type_code = s.device_type_code ∧
        (async_disconnect s).device_model_name = s.device_model_name ∧
        (async_disconnect s).icon = s.icon ∧
        (async_disconnect s).dpid = s.dpid ∧
        (async_disconnect s).software_version = s.software_version) :=
  ⟨fun _ => rfl, fun _ => ⟨rfl, rfl⟩,
   fun _ => ⟨rfl, rfl, rfl, rfl, rfl, rfl, rfl, rfl⟩⟩

/-- Claim C6: query on a disconnected session returns the empty map, leaves
the session state exactly unchanged, and performs no lock or socket
action. -/
theorem c6_query_disconnected (s : DeviceState) (env : NetEnv)
    (h : s.connected = false) :
    async_query s env = (s, Json.obj []) ∧
    sendReceiveTrace s env CMD_QUERY [] 3 = [] := by
  constructor
  · simp only [async_query, async_send_receive, h, if_pos]
    rfl
  · simp only [sendReceiveTrace, h, if_pos]

/-- Witness for claim C6: the freshly constructed (disconnected) session. -/
theorem c6_query_disconnected_witness :
    async_query (initDevice "10.0.0.9") exEnvOk = (initDevice "10.0.0.9", Json.obj []) ∧
    sendReceiveTrace (initDevice "10.0.0.9") exEnvOk CMD_QUERY [] 3 = [] :=
  c6_query_disconnected (initDevice "10.0.0.9") exEnvOk rfl

theorem filter_of_unique_accept :
    ∀ (l : List String) (acc : String → Bool) (h : String),
      (∀ ip, acc ip = true ↔ ip = h) → l.count h = 1 → l.filter acc = [h] := by
  intro l acc h hacc
  induction l with
  | nil => intro hcount; simp at hcount
  | cons x xs ih =>
    intro hcount
    by_cases hx : x = h
    · subst hx
      have hxs : xs.count x = 0 := by
        rw [List.count_cons_self] at hcount
        omega
      have hnx : x ∉ xs := List.count_eq_zero.mp hxs
      have hfx : xs.filter acc = [] := by
        rw [List.filter_eq_nil_iff]
        intro a ha hacca
        exact hnx ((hacc a).mp hacca ▸ ha)
      have haccx : acc x = true := (hacc x).mpr rfl
      simp [List.filter_cons, haccx, hfx]
    · have haccx : acc x = false := by
        cases hq : acc x with
        | false => rfl
        | true => exact absurd ((hacc x).mp hq) hx
      have hcx : xs.count h = 1 := by
        rw [List.count_cons_of_ne (fun he => hx he.symm)] at hcount
        exact hcount
      simp [List.filter_cons, haccx]
      exact ih hcx

theorem mem_hostsRange_iff (net p a : Nat) (hp : p ≤ 30) :
    a ∈ hostsRange net p ↔ a ∈ claimUsableHosts net p := by
  have h31 : ¬31 ≤ p := by omega
  have hsz : 4 ≤ subnetSize p := by
    have h2 : 2 ≤ 32 - p := by omega
    calc (4 : Nat) = 2 ^ 2 := by norm_num
    _ ≤ 2 ^ (32 - p) := Nat.pow_le_pow_right (by norm_num) h2
  unfold hostsRange claimUsableHosts
  simp only [h31, if_false, List.mem_filter, List.mem_map, List.mem_range,
    decide_eq_true_eq]
  constructor
  · rintro ⟨i, hi, rfl⟩
    exact ⟨⟨i + 1, by omega, by omega⟩, by omega, by omega⟩
  · rintro ⟨⟨i, hi, rfl⟩, hne1, hne2⟩
    exact ⟨i - 1, by omega, by omega⟩

/-- Claim C7 (counterexample): for the range 10.0.0.1/32 whose single address
accepts connections, the scan returns that address, although under the
reading the claim gives of usable hosts (network and broadcast addresses excluded)
the range has no usable host at all: the Python hosts() yields the single
address of a /32 (and both addresses of a /31). -/
theorem c7_slash32_counterexample :
    scan_subnet_async "10.0.0.1/32" (fun ip => ip == "10.0.0.1") = ["10.0.0.1"] ∧
    claimUsableHosts 167772161 32 = [] ∧
    ip_network "10.0.0.1/32" = some (167772161, 32) := by
  refine ⟨by decide, by decide, by decide⟩

/-- Claim C7 (amended): a probe returns found only on a successful connect
(refusals, timeouts and other I/O errors count as not found, nothing is
raised); a malformed CIDR yields the empty list; the scan returns exactly
the accepted addresses among the hosts() of the range, where hosts()
agrees with the usable hosts of the claim (network/broadcast excluded) for every
prefix up to /30 and additionally yields all addresses of a /31 or /32
range; a range with no accepting host yields the empty list; and a range
listing an accepting host exactly once yields exactly that one-element
list. -/
theorem c7_subnet_probe :
    (∀ o : ProbeOutcome, check_device_at_ip o = true ↔ o = ProbeOutcome.ok) ∧
    (∀ (s : String) (acc : String → Bool), ip_network s = none →
        scan_subnet_async s acc = []) ∧
    (∀ (s : String) (acc : String → Bool) (net p : Nat),
        ip_network s = some (net, p) →
        scan_subnet_async s acc = ((hostsRange net p).map ipToString).filter acc) ∧
    (∀ (net p a : Nat), p ≤ 30 →
        (a ∈ hostsRange net p ↔ a ∈ claimUsableHosts net p)) ∧
    (∀ (s : String) (acc : String → Bool), (∀ ip, acc ip = false) →
        scan_subnet_async s acc = []) ∧
    (∀ (s : String) (acc : String → Bool) (net p : Nat) (h : String),
        ip_network s = some (net, p) →
        ((hostsRange net p).map ipToString).count h = 1 →
        (∀ ip, acc ip = true ↔ ip = h) →
        scan_subnet_async s acc = [h]) := by
  refine ⟨?_, ?_, ?_, ?_, ?_, ?_⟩
  · intro o
    cases o <;> simp [check_device_at_ip]
  · intro s acc hn
    simp [scan_subnet_async, hn]
  · intro s acc net p hn
    simp [scan_subnet_async, hn]
  · exact fun net p a hp => mem_hostsRange_iff net p a hp
  · intro s acc hacc
    unfold scan_subnet_async
    cases hn : ip_network s with
    | none => rfl
    | some v =>
      rw [List.filter_eq_nil_iff]
      intro a _
      simp [hacc a]
  · intro s acc net p h hn hcount hacc
    unfold scan_subnet_async
    rw [hn]
    exact filter_of_unique_accept _ acc h hacc hcount

/-- Witness for claim C7 (amended): scanning 192.168.1.0/30 when exactly
192.168.1.1 accepts returns exactly that host. -/
theorem c7_subnet_probe_witness :
    scan_subnet_async "192.168.1.0/30" (fun ip => ip == "192.168.1.1") =
      ["192.168.1.1"] :=
  c7_subnet_probe.2.2.2.2.2 "192.168.1.0/30" _ 3232235776 30 "192.168.1.1"
    (by decide) (by decide) (fun ip => by simp)

/-- Claim C8: each reconciliation tick diffs the current
discovered-plus-configured address set against the set of the previous tick,
with new equal to current minus previous and gone equal to previous minus
current, then carries current forward; in particular previous A,B with
current B,C gives new C and gone A. -/
theorem c8_reconciliation_diff :
    (∀ (d c sub : List String) (last : Finset String) (x : String),
        x ∈ (reconcileTick d c sub last).newIps ↔
          (x ∈ d ∨ x ∈ c ∨ x ∈ sub) ∧ x ∉ last) ∧
    (∀ (d c sub : List String) (last : Finset String) (x : String),
        x ∈ (reconcileTick d c sub last).goneIps ↔
          x ∈ last ∧ ¬(x ∈ d ∨ x ∈ c ∨ x ∈ sub)) ∧
    (∀ (d c sub : List String) (last : Finset String),
        (reconcileTick d c sub last).lastAfter = (d ++ c ++ sub).toFinset) ∧
    (reconcileTick ["B", "C"] [] [] {"A", "B"}).newIps = {"C"} ∧
    (reconcileTick ["B", "C"] [] [] {"A", "B"}).goneIps = {"A"} := by
  refine ⟨?_, ?_, fun d c sub last => rfl, by decide, by decide⟩
  · intro d c sub last x
    simp [reconcileTick, or_assoc]
  · intro d c sub last x
    simp [reconcileTick, or_assoc]

/-- Witness for claim C8: the diff membership at the concrete instance of
the claim. -/
theorem c8_reconciliation_diff_witness :
    "C" ∈ (reconcileTick ["B", "C"] [] [] {"A", "B"}).newIps ↔
      ("C" ∈ ["B", "C"] ∨ "C" ∈ ([] : List String) ∨ "C" ∈ ([] : List String)) ∧
      "C" ∉ ({"A", "B"} : Finset String) :=
  c8_reconciliation_diff.1 ["B", "C"] [] [] {"A", "B"} "C"

/-- Claim C9 (counterexample): encoding can fail although the command kind is
the valid SET: a SET payload keyed by a non-numeric string makes int()
raise, so the claimed equivalence (failure exactly for invalid kinds) does
not hold. -/
theorem c9_nonnumeric_key_counterexample :
    CMD_SET ∈ CMD_LIST ∧ encodeOk CMD_SET [("x", Json.num 1)] "7" = false :=
  ⟨by decide, by decide⟩

/-- Claim C9 (amended): encoding fails exactly when the command kind is not
one of INFO, QUERY, SET, or when it is SET and some payload key does not
parse as an integer; a successfully encoded SET message carries attr equal
to the integer-parsed payload keys and data equal to the payload (so the
control payload keyed 1 with value 255 yields attr [1] and that same data),
and the fire-and-forget SET path performs no read. -/
theorem c9_encoding :
    (∀ (cmd : Nat) (payload : List (String × Json)) (sn : String),
        encodeOk cmd payload sn = true ↔
          (cmd ∈ CMD_LIST ∧ (cmd = CMD_SET → (attrsOf payload).isSome = true))) ∧
    (∀ (payload : List (String × Json)) (sn : String) (attrs : List Int),
        attrsOf payload = some attrs →
        ∃ m, get_package CMD_SET payload sn = Except.ok m ∧
          ((jsonLookup m "msg").bind (fun x => jsonLookup x "attr")) =
            some (Json.arr (attrs.map Json.num)) ∧
          ((jsonLookup m "msg").bind (fun x => jsonLookup x "data")) =
            some (Json.obj payload)) ∧
    (∀ (s : DeviceState) (env : NetEnv) (payload : List (String × Json)),
        SockAction.read ∉ sendOnlyTrace s env CMD_SET payload) ∧
    attrsOf [("1", Json.num 255)] = some [1] := by
  refine ⟨?_, ?_, ?_, by decide⟩
  · intro cmd payload sn
    unfold encodeOk get_package
    by_cases h3 : cmd = CMD_SET
    · subst h3
      cases ha : attrsOf payload with
      | some l => simp [ha, CMD_LIST]
      | none => simp [ha, CMD_LIST]
    · by_cases h2 : cmd = CMD_QUERY
      · subst h2
        simp [CMD_LIST, CMD_QUERY, CMD_SET]
      · by_cases h0 : cmd = CMD_INFO
        · subst h0
          simp [CMD_LIST, CMD_INFO, CMD_QUERY, CMD_SET]
        · have h3' : cmd ≠ 3 := by simpa [CMD_SET] using h3
          have h2' : cmd ≠ 2 := by simpa [CMD_QUERY] using h2
          have h0' : cmd ≠ 0 := by simpa [CMD_INFO] using h0
          simp [h3', h2', h0', CMD_LIST, CMD_INFO, CMD_QUERY, CMD_SET]
  · intro payload sn attrs ha
    refine ⟨Json.obj
      [("pv", Json.num 0), ("cmd", Json.num (Int.ofNat CMD_SET)),
       ("sn", Json.str sn),
       ("msg", Json.obj
         [("attr", Json.arr (attrs.map Json.num)),
          ("data", Json.obj payload)])], ?_, rfl, rfl⟩
    unfold get_package
    simp [ha]
  · intro s env payload
    by_cases hc : s.connected = false
    · simp [sendOnlyTrace, hc]
    · simp only [sendOnlyTrace, hc, if_neg, not_false_eq_true]
      cases hp : get_package CMD_SET payload (refreshSn s).sn with
      | error e => simp [hp]
      | ok v => simp [hp]

/-- Witness for claim C9 (amended): the SET message for the control payload
keyed 1 with value 255 carries attr [1] and that payload as data. -/
theorem c9_encoding_witness :
    ∃ m, get_package CMD_SET [("1", Json.num 255)] "5" = Except.ok m ∧
      ((jsonLookup m "msg").bind (fun x => jsonLookup x "attr")) =
        some (Json.arr [Json.num 1]) ∧
      ((jsonLookup m "msg").bind (fun x => jsonLookup x "data")) =
        some (Json.obj [("1", Json.num 255)]) :=
  c9_encoding.2.1 [("1", Json.num 255)] "5" [1] (by decide)

/-- Claim C10: the synchronous compatibility wrappers perform no I/O and
unconditionally return the empty map and False, leaving the session state
untouched, whereas the async query path does reach the socket. -/
theorem c10_sync_wrappers :
    (∀ s : DeviceState, CozyLifeDevice.query s = (s, Json.obj [])) ∧
    (∀ (s : DeviceState) (p : List (String × Json)),
        CozyLifeDevice.control s p = (s, false)) ∧
    queryTrace = [] ∧ controlTrace = [] ∧
    SockAction.write ∈ sendReceiveTrace exConn exEnvOk CMD_QUERY [] 3 :=
  ⟨fun _ => rfl, fun _ _ => rfl, rfl, rfl, by decide⟩
